import Mathlib

/-
Verification of the SKW session-manager specification.

Part 1 embeds the Peer session engine (lifecycle state machine, connection
registry, directory client).  The engine implementation itself is not part of
the sources available here (only its test suite is), so those definitions are
modelled from the specification text, with effect logs making the externally
observable actions (emitted notifications, Transport close invocations,
per-peer cleanup invocations, Connection Handle close invocations) explicit.

Part 2 embeds the statistics-normalization utilities from
src/shared/statsUtil.js directly from the source.
-/

set_option maxHeartbeats 1000000

namespace SKW

/-- Notifications emitted by the session engine through its observer channel. -/
inductive Ev where
  | openEv (id : String)
  | disconnectedEv (lastId : Option String)
  | errorEv (kind : String) (message : String)
deriving DecidableEq

/-- Log of externally observable effects of one engine operation:
notifications emitted in order, number of Transport close invocations,
the per-peer cleanup invocations in order, and the Connection Handle close
invocations in order (handles are identified by numeric tags). -/
structure Effects where
  events : List Ev
  socketCloses : Nat
  cleanupCalls : List String
  closedHandles : List Nat
deriving DecidableEq

/-- The empty effect log. -/
def emptyEffects : Effects := ⟨[], 0, [], []⟩

/-- Concatenation of two effect logs, in order. -/
def effAppend (a b : Effects) : Effects :=
  ⟨a.events ++ b.events, a.socketCloses + b.socketCloses,
   a.cleanupCalls ++ b.cleanupCalls, a.closedHandles ++ b.closedHandles⟩

/-- Modelled from the spec: the Session data model (src/peer.js is not among
the available sources; only its test suite is).  `id` is the nullable session
identifier, `lastPeerId` the most recently held identifier, `openFlag` the
open flag, `disconnectCalled` and `destroyCalled` the lifecycle flags, and
`connections` the Connection Registry mapping remote-peer identifiers to the
ordered sequence of Connection Handles registered for that peer. -/
structure Peer where
  id : Option String
  lastPeerId : Option String
  openFlag : Bool
  disconnectCalled : Bool
  destroyCalled : Bool
  connections : List (String × List Nat)
deriving DecidableEq

/-- The four lifecycle states of the session engine. -/
inductive PeerState where
  | INITIALIZING
  | OPEN
  | DISCONNECTED
  | DESTROYED
deriving DecidableEq

/-- Modelled from the spec: the lifecycle state as a function of the flags.
DESTROYED is terminal, DISCONNECTED is entered by the disconnect transition,
OPEN holds once the broker confirmed the identifier. -/
def Peer.state (p : Peer) : PeerState :=
  if p.destroyCalled then PeerState.DESTROYED
  else if p.disconnectCalled then PeerState.DISCONNECTED
  else if p.openFlag then PeerState.OPEN
  else PeerState.INITIALIZING

/-- Modelled from the spec: `register(remotePeerId, handle)` appends the
handle to the ordered sequence for that peer, creating the entry if absent. -/
def register (p : Peer) (peerId : String) (h : Nat) : Peer :=
  match p.connections.lookup peerId with
  | some hs =>
      { p with connections :=
          p.connections.map (fun e => if e.fst == peerId then (e.fst, hs ++ [h]) else e) }
  | none =>
      { p with connections := p.connections ++ [(peerId, [h])] }

/-- Modelled from the spec: `disconnect()`.  On the first call it records the
identifier into `lastPeerId`, clears `id`, clears the open flag, closes the
Transport and emits exactly one `disconnected` notification carrying the
previous identifier.  Any later call (DISCONNECTED or DESTROYED is already
reached) is a no-op with no effects. -/
def disconnect (p : Peer) : Peer × Effects :=
  if p.disconnectCalled then (p, emptyEffects)
  else
    ({ p with disconnectCalled := true, openFlag := false,
              lastPeerId := p.id, id := none },
     ⟨[Ev.disconnectedEv p.id], 1, [], []⟩)

/-- Modelled from the spec: the per-peer cleanup routine.  It is recorded in
the effect log each time it is invoked; it closes every Connection Handle
registered for the peer in insertion order and removes the entry, and is a
no-op on an already-absent entry. -/
def cleanupPeer (p : Peer) (peerId : String) : Peer × Effects :=
  match p.connections.lookup peerId with
  | some handles =>
      ({ p with connections := p.connections.filter (fun e => e.fst != peerId) },
       ⟨[], 0, [peerId], handles⟩)
  | none => (p, ⟨[], 0, [peerId], []⟩)

/-- Modelled from the spec: `teardownAll` iterates the registry entries, one
remote peer at a time, applying the per-peer cleanup to each. -/
def teardownLoop : List String → Peer → Peer × Effects
  | [], p => (p, emptyEffects)
  | peerId :: rest, p =>
      let r := cleanupPeer p peerId
      let r2 := teardownLoop rest r.fst
      (r2.fst, effAppend r.snd r2.snd)

/-- Modelled from the spec: `destroy()`.  On the first call it first executes
the disconnect transition, then tears down every registry entry, then sets
the terminal flag; any later call is a no-op with no effects. -/
def destroy (p : Peer) : Peer × Effects :=
  if p.destroyCalled then (p, emptyEffects)
  else
    let d := disconnect p
    let t := teardownLoop (d.fst.connections.map Prod.fst) d.fst
    ({ t.fst with destroyCalled := true }, effAppend d.snd t.snd)

/-- Modelled from the spec: the handler for the Transport connection-loss
event.  It relays the event as an error notification of kind
transport-error with the fixed connection-lost message, and forces the
disconnect transition. -/
def handleSocketDisconnect (p : Peer) : Peer × Effects :=
  let d := disconnect p
  (d.fst,
   ⟨Ev.errorEv "transport-error" "Lost connection to server." :: d.snd.events,
    d.snd.socketCloses, d.snd.cleanupCalls, d.snd.closedHandles⟩)

/-- Test for the `disconnected` notification kind. -/
def isDisconnectedEv : Ev → Bool
  | Ev.disconnectedEv _ => true
  | _ => false

/-- Number of `disconnected` notifications in an event list. -/
def countDisconnected (evs : List Ev) : Nat :=
  (evs.filter isDisconnectedEv).length

/-- Modelled from the spec: a caller-supplied identifier must match a
restricted character class of ASCII letters, digits and a small set of
punctuation. -/
def validIdChar (c : Char) : Bool :=
  c.isAlpha || c.isDigit || c == '-' || c == '_'

/-- Modelled from the spec: validity of a caller-supplied identifier. -/
def validId (s : String) : Bool :=
  s.toList.all validIdChar

/-- Modelled from the spec: the authentication credential must match an
expected structural format, a fixed-length token-like string (36 characters
of ASCII letters, digits and hyphens, as in the credential used by the test
suite). -/
def validApiKey (s : String) : Bool :=
  s.length == 36 && s.toList.all (fun c => c.isAlpha || c.isDigit || c == '-')

/-- Result of attempting to construct a session: either a Session object or
a synchronous construction failure carrying its error kind. -/
inductive ConstructResult where
  | made (p : Peer)
  | failed (kind : String)
deriving DecidableEq

/-- True when a fixed identifier was supplied and is malformed. -/
def invalidFixedId : Option String → Bool
  | some i => !(validId i)
  | none => false

/-- Modelled from the spec: construction validates the optional fixed
identifier and the credential synchronously, before any Transport is
created; a malformed identifier fails with kind invalid-identifier and a
malformed credential with kind invalid-credential, producing no Session
object.  Otherwise a fresh Session in the INITIALIZING state with an empty
registry is produced. -/
def newPeer (fixedId : Option String) (key : String) : ConstructResult :=
  if invalidFixedId fixedId then ConstructResult.failed "invalid-identifier"
  else if !(validApiKey key) then ConstructResult.failed "invalid-credential"
  else ConstructResult.made ⟨fixedId, none, false, false, false, []⟩

/-- Modelled from the spec: response handling of `listAllPeers`.  The result
records the sequence of callback invocations (each with its argument) and
the optionally raised fatal error.  Status 401 raises the fatal
directory-unauthorized error and never invokes the callback; status 200
delivers the parsed body to the callback when one was supplied; every other
status delivers the empty sequence to the callback when one was supplied.
No error is raised outside the 401 case. -/
def listAllPeersResponse (status : Nat) (body : List String) (hasCallback : Bool) :
    List (List String) × Option String :=
  if status == 401 then ([], some "directory-unauthorized")
  else if status == 200 then ((if hasCallback then [body] else []), none)
  else ((if hasCallback then [[]] else []), none)

/-
Part 2: embedding of src/shared/statsUtil.js.

JavaScript values appearing in stats objects are modelled by `JSVal`; a stats
object is an association list from attribute names to values, and reading a
missing attribute yields `undef`, as property access does in JavaScript.
-/

/-- A JavaScript value as it appears in an RTCStats object. -/
inductive JSVal where
  | undef
  | null
  | jbool (b : Bool)
  | jnum (n : Int)
  | jstr (s : String)
deriving DecidableEq

/-- An RTCStats object: attribute names mapped to values, in insertion order. -/
abbrev StatsObj := List (String × JSVal)

/-- A standardized stats report: stats reference names mapped to arrays of
stats objects, in insertion order. -/
abbrev StatsReport := List (String × List StatsObj)

/-- Property read on a stats object: the stored value, or `undef` when the
attribute is absent. -/
def getAttr (o : StatsObj) (k : String) : JSVal :=
  match o.lookup k with
  | some v => v
  | none => JSVal.undef

/-- JavaScript truthiness of a value. -/
def jsTruthy : JSVal → Bool
  | JSVal.undef => false
  | JSVal.null => false
  | JSVal.jbool b => b
  | JSVal.jnum n => n != 0
  | JSVal.jstr s => s != ""

/-- From statsUtil.js: `isReferredStats` checks that every key-value pair of
`referKeys` is strictly equal to the corresponding attribute of `stats`. -/
def isReferredStats (stats : StatsObj) (referKeys : List (String × JSVal)) : Bool :=
  referKeys.all (fun kv => getAttr stats kv.fst == kv.snd)

/-- From statsUtil.js: `PREFFERED_STATS_MAP`, the preferred attribute names
for each stats object reference. -/
def PREFFERED_STATS_MAP : List (String × List String) :=
  [("RTCOutboundRtpVideoStreams", ["qpSum", "framesEncoded", "bytesSent", "timestamp"]),
   ("RTCOutboundRtpAudioStreams", ["bytesSent", "timestamp"]),
   ("RTCInboundRtpVideoStreams",
    ["packetsLost", "bytesReceived", "framesEncoded", "qpSum", "timestamp"]),
   ("RTCInboundRtpAudioStreams", ["packetsLost", "bytesReceived", "timestamp"]),
   ("RTCRemoteInboundRtpVideoStreams", ["jitter", "roundTripTime"]),
   ("RTCRemoteInboundRtpAudioStreams", ["jitter", "roundTripTime"]),
   ("RTCAudioSenders", ["audioLevel"]),
   ("RTCVideoReceivers", ["jitterBufferDelay"]),
   ("RTCAudioReceivers", ["audioLevel", "jitterBufferDelay"]),
   ("RTCIceCandidatePairs",
    ["bytesSent", "bytesReceived", "timestamp", "currentRoundTripTime"])]

/-- The preferred attribute list for a stats reference. -/
def prefferedAttrs (ref : String) : List String :=
  match PREFFERED_STATS_MAP.lookup ref with
  | some attrs => attrs
  | none => []

/-- From statsUtil.js: `CHROME_REFERENCE_MAP`. -/
def CHROME_REFERENCE_MAP : List (String × List (String × JSVal)) :=
  [("RTCOutboundRtpVideoStreams",
    [("type", JSVal.jstr "outbound-rtp"), ("kind", JSVal.jstr "video")]),
   ("RTCOutboundRtpAudioStreams",
    [("type", JSVal.jstr "outbound-rtp"), ("kind", JSVal.jstr "audio")]),
   ("RTCInboundRtpVideoStreams",
    [("type", JSVal.jstr "inbound-rtp"), ("kind", JSVal.jstr "video")]),
   ("RTCInboundRtpAudioStreams",
    [("type", JSVal.jstr "inbound-rtp"), ("kind", JSVal.jstr "audio")]),
   ("RTCRemoteInboundRtpVideoStreams",
    [("type", JSVal.jstr "remote-inbound-rtp"), ("kind", JSVal.jstr "video")]),
   ("RTCRemoteInboundRtpAudioStreams",
    [("type", JSVal.jstr "remote-inbound-rtp"), ("kind", JSVal.jstr "audio")]),
   ("RTCAudioSenders",
    [("type", JSVal.jstr "track"), ("kind", JSVal.jstr "audio"),
     ("remoteSource", JSVal.jbool false)]),
   ("RTCVideoReceivers",
    [("type", JSVal.jstr "track"), ("kind", JSVal.jstr "video"),
     ("remoteSource", JSVal.jbool true)]),
   ("RTCAudioReceivers",
    [("type", JSVal.jstr "track"), ("kind", JSVal.jstr "audio"),
     ("remoteSource", JSVal.jbool true)]),
   ("RTCIceCandidatePairs",
    [("type", JSVal.jstr "candidate-pair"), ("nominated", JSVal.jbool false)])]

/-- From statsUtil.js: `FIREFOX_REFERENCE_MAP`. -/
def FIREFOX_REFERENCE_MAP : List (String × List (String × JSVal)) :=
  [("RTCOutboundRtpVideoStreams",
    [("type", JSVal.jstr "outbound-rtp"), ("kind", JSVal.jstr "video")]),
   ("RTCOutboundRtpAudioStreams",
    [("type", JSVal.jstr "outbound-rtp"), ("kind", JSVal.jstr "audio")]),
   ("RTCInboundRtpVideoStreams",
    [("type", JSVal.jstr "inbound-rtp"), ("kind", JSVal.jstr "video")]),
   ("RTCInboundRtpAudioStreams",
    [("type", JSVal.jstr "inbound-rtp"), ("kind", JSVal.jstr "audio")]),
   ("RTCRemoteInboundRtpVideoStreams",
    [("type", JSVal.jstr "remote-inbound-rtp"), ("kind", JSVal.jstr "video")]),
   ("RTCRemoteInboundRtpAudioStreams",
    [("type", JSVal.jstr "remote-inbound-rtp"), ("kind", JSVal.jstr "audio")]),
   ("RTCAudioSenders",
    [("type", JSVal.jstr "outbound-rtp"), ("kind", JSVal.jstr "audio")]),
   ("RTCVideoReceivers",
    [("type", JSVal.jstr "inbound-rtp"), ("kind", JSVal.jstr "video")]),
   ("RTCAudioReceivers",
    [("type", JSVal.jstr "inbound-rtp"), ("kind", JSVal.jstr "audio")]),
   ("RTCIceCandidatePairs",
    [("type", JSVal.jstr "candidate-pair"), ("nominated", JSVal.jbool false)])]

/-- From statsUtil.js: `SAFARI_REFERENCE_MAP`. -/
def SAFARI_REFERENCE_MAP : List (String × List (String × JSVal)) :=
  [("RTCOutboundRtpVideoStreams",
    [("type", JSVal.jstr "outbound-rtp"), ("kind", JSVal.jstr "video")]),
   ("RTCOutboundRtpAudioStreams",
    [("type", JSVal.jstr "outbound-rtp"), ("kind", JSVal.jstr "audio")]),
   ("RTCInboundRtpVideoStreams",
    [("type", JSVal.jstr "inbound-rtp"), ("kind", JSVal.jstr "video")]),
   ("RTCInboundRtpAudioStreams",
    [("type", JSVal.jstr "inbound-rtp"), ("kind", JSVal.jstr "audio")]),
   ("RTCRemoteInboundRtpVideoStreams",
    [("type", JSVal.jstr "remote-inbound-rtp"), ("kind", JSVal.jstr "video")]),
   ("RTCRemoteInboundRtpAudioStreams",
    [("type", JSVal.jstr "remote-inbound-rtp"), ("kind", JSVal.jstr "audio")]),
   ("RTCAudioSenders",
    [("type", JSVal.jstr "track"), ("kind", JSVal.jstr "audio"),
     ("remoteSource", JSVal.jbool false)]),
   ("RTCVideoReceivers",
    [("type", JSVal.jstr "track"), ("kind", JSVal.jstr "video"),
     ("remoteSource", JSVal.jbool true)]),
   ("RTCAudioReceivers",
    [("type", JSVal.jstr "track"), ("kind", JSVal.jstr "audio"),
     ("remoteSource", JSVal.jbool true)]),
   ("RTCIceCandidatePairs",
    [("type", JSVal.jstr "candidate-pair"), ("nominated", JSVal.jbool false)])]

/-- From statsUtil.js: `getDialectalReferenceMap`, selecting the reference
map by detected browser name, or none for an unknown browser. -/
def getDialectalReferenceMap (browserName : String) :
    Option (List (String × List (String × JSVal))) :=
  if browserName = "chrome" then some CHROME_REFERENCE_MAP
  else if browserName = "firefox" then some FIREFOX_REFERENCE_MAP
  else if browserName = "safari" then some SAFARI_REFERENCE_MAP
  else none

/-- From statsUtil.js: the stats object built in the preferred-attribute copy
branch of `standardizeStatsReport`: for each preferred attribute, when the
original attribute is strictly equal to undefined the undefined value itself
is stored, otherwise null is stored. -/
def buildStandardStats (attrs : List String) (originalStats : StatsObj) : StatsObj :=
  attrs.map (fun attr =>
    (attr, if getAttr originalStats attr = JSVal.undef then JSVal.undef else JSVal.null))

/-- JavaScript `Map.prototype.set` on an association list: an existing key is
updated in place, a new key is appended. -/
def mapSet (report : StatsReport) (k : String) (v : List StatsObj) : StatsReport :=
  if (report.lookup k).isSome then
    report.map (fun e => if e.fst == k then (e.fst, v) else e)
  else report ++ [(k, v)]

/-- From statsUtil.js: the body of the outer loop of `standardizeStatsReport`
for one reference-map entry: find the first original stats matching the refer
keys; when found, build the standardized stats object and register it under
the reference, pushing onto the existing array when the reference is already
present. -/
def standardizeStep (originalReport : List StatsObj) (report : StatsReport)
    (rk : String × List (String × JSVal)) : StatsReport :=
  match originalReport.find? (fun o => isReferredStats o rk.snd) with
  | none => report
  | some originalStats =>
    let stats := buildStandardStats (prefferedAttrs rk.fst) originalStats
    match report.lookup rk.fst with
    | some statsArray => mapSet report rk.fst (statsArray ++ [stats])
    | none => mapSet report rk.fst [stats]

/-- From statsUtil.js: `standardizeStatsReport` restricted to a given
reference map: scan the reference-map entries and build the standardized
report. -/
def standardizeWith (referenceMap : List (String × List (String × JSVal)))
    (originalReport : List StatsObj) : StatsReport :=
  referenceMap.foldl (standardizeStep originalReport) []

/-- From statsUtil.js: `standardizeStatsReport`: select the reference map for
the detected browser, returning none for an unknown browser, and standardize
the original report with it. -/
def standardizeStatsReport (browserName : String) (originalReport : List StatsObj) :
    Option StatsReport :=
  match getDialectalReferenceMap browserName with
  | none => none
  | some referenceMap => some (standardizeWith referenceMap originalReport)

/-- From statsUtil.js: the nominated-pair search of `_getCandidatePairStats`:
among the stats registered under RTCIceCandidatePairs, find the first with a
truthy nominated attribute. -/
def findNominatedPair (report : StatsReport) : Option StatsObj :=
  match report.lookup "RTCIceCandidatePairs" with
  | some statsArray => statsArray.find? (fun s => jsTruthy (getAttr s "nominated"))
  | none => none

/-
Helper lemmas.
-/

theorem disconnect_connections (p : Peer) :
    (disconnect p).fst.connections = p.connections := by
  unfold disconnect
  split <;> rfl

theorem disconnect_registry_effects (p : Peer) :
    (disconnect p).snd.cleanupCalls = [] ∧ (disconnect p).snd.closedHandles = [] := by
  unfold disconnect
  split <;> exact ⟨rfl, rfl⟩

theorem disconnect_event_bound (p : Peer) :
    countDisconnected (disconnect p).snd.events ≤ 1 ∧ (disconnect p).snd.socketCloses ≤ 1 := by
  unfold disconnect
  split
  · exact ⟨Nat.zero_le 1, Nat.zero_le 1⟩
  · exact ⟨Nat.le_refl 1, Nat.le_refl 1⟩

theorem filter_ne_key {α : Type} {rest : List (String × α)} {k : String}
    (h : k ∉ rest.map Prod.fst) :
    rest.filter (fun e => e.fst != k) = rest := by
  induction rest with
  | nil => rfl
  | cons e es ih =>
    simp only [List.map_cons, List.mem_cons, not_or] at h
    have he : (e.fst != k) = true := by
      rw [bne_iff_ne]
      exact fun hk => h.1 hk.symm
    simp [List.filter_cons, he, ih h.2]

theorem teardownLoop_spec (c : List (String × List Nat)) :
    ∀ p : Peer, p.connections = c → (c.map Prod.fst).Nodup →
      teardownLoop (c.map Prod.fst) p =
        ({ p with connections := [] },
         ⟨[], 0, c.map Prod.fst, (c.map Prod.snd).flatten⟩) := by
  induction c with
  | nil =>
    intro p hc _
    simp only [List.map_nil, teardownLoop, emptyEffects]
    cases p
    simp_all
  | cons e rest ih =>
    intro p hc hnd
    obtain ⟨k, hs⟩ := e
    simp only [List.map_cons, List.nodup_cons] at hnd ⊢
    have hclean : cleanupPeer p k =
        ({ p with connections := rest }, ⟨[], 0, [k], hs⟩) := by
      unfold cleanupPeer
      rw [hc]
      simp only [List.lookup, beq_self_eq_true, if_true]
      have hfilter : ((k, hs) :: rest).filter (fun e => e.fst != k) = rest := by
        rw [List.filter_cons]
        simp only [bne_self_eq_false, Bool.false_eq_true, if_false]
        exact filter_ne_key hnd.1
      rw [hfilter]
    have hrest := ih { p with connections := rest } rfl hnd.2
    show (let r := cleanupPeer p k
          let r2 := teardownLoop (rest.map Prod.fst) r.fst
          (r2.fst, effAppend r.snd r2.snd)) = _
    rw [hclean]
    simp only
    rw [hrest]
    simp [effAppend]

theorem teardownLoop_silent (ids : List String) :
    ∀ p : Peer, (teardownLoop ids p).snd.events = [] ∧
      (teardownLoop ids p).snd.socketCloses = 0 := by
  induction ids with
  | nil => intro p; exact ⟨rfl, rfl⟩
  | cons peerId rest ih =>
    intro p
    have hc : (cleanupPeer p peerId).snd.events = [] ∧
        (cleanupPeer p peerId).snd.socketCloses = 0 := by
      unfold cleanupPeer
      split <;> exact ⟨rfl, rfl⟩
    have hr := ih (cleanupPeer p peerId).fst
    constructor
    · show (effAppend (cleanupPeer p peerId).snd
          (teardownLoop rest (cleanupPeer p peerId).fst).snd).events = []
      simp [effAppend, hc.1, hr.1]
    · show (effAppend (cleanupPeer p peerId).snd
          (teardownLoop rest (cleanupPeer p peerId).fst).snd).socketCloses = 0
      simp [effAppend, hc.2, hr.2]

theorem destroy_terminal (p : Peer) : (destroy p).fst.destroyCalled = true := by
  unfold destroy
  split
  · assumption
  · rfl

theorem destroy_noop (q : Peer) (h : q.destroyCalled = true) :
    destroy q = (q, emptyEffects) := by
  unfold destroy
  rw [h]
  simp

/-
Claim theorems.
-/

/-- Claim C1: after registering connection handles under N distinct
remote-peer identifiers and then calling destroy once, the per-peer cleanup
routine is invoked exactly once for each registered remote peer, the close
operation of every registered Connection Handle is invoked exactly once (the
close log is exactly the concatenation of the registered handle sequences),
and the registry holds no entries afterwards. -/
theorem destroy_cleanup_exactly_once (p : Peer)
    (hd : p.destroyCalled = false)
    (hnd : (p.connections.map Prod.fst).Nodup) :
    (destroy p).snd.cleanupCalls = p.connections.map Prod.fst ∧
    (∀ q ∈ p.connections.map Prod.fst, ((destroy p).snd.cleanupCalls).count q = 1) ∧
    (destroy p).snd.closedHandles = (p.connections.map Prod.snd).flatten ∧
    (destroy p).fst.connections = [] := by
  have hdc := disconnect_connections p
  have hspec := teardownLoop_spec p.connections (disconnect p).fst hdc hnd
  have hreg := disconnect_registry_effects p
  have hdestroy : destroy p =
      ({ ({ (disconnect p).fst with connections := [] }) with destroyCalled := true },
       effAppend (disconnect p).snd
         ⟨[], 0, p.connections.map Prod.fst, (p.connections.map Prod.snd).flatten⟩) := by
    unfold destroy
    rw [hd]
    simp only [Bool.false_eq_true, if_false]
    rw [hdc, hspec]
  rw [hdestroy]
  refine ⟨?_, ?_, ?_, rfl⟩
  · simp [effAppend, hreg.1]
  · intro q hq
    simp only [effAppend, hreg.1, List.nil_append]
    exact List.count_eq_one_of_mem hnd hq
  · simp [effAppend, hreg.2]

/-- Claim C1 witness at a concrete session holding two remote peers with
three registered handles. -/
theorem destroy_cleanup_exactly_once_witness :
    (Peer.mk (some "a") none true false false [("p1", [1, 2]), ("p2", [3])]).destroyCalled
        = false ∧
    (((Peer.mk (some "a") none true false false
        [("p1", [1, 2]), ("p2", [3])]).connections.map Prod.fst).Nodup) ∧
    ((destroy (Peer.mk (some "a") none true false false
        [("p1", [1, 2]), ("p2", [3])])).snd.cleanupCalls = ["p1", "p2"] ∧
     (∀ q ∈ ["p1", "p2"],
       ((destroy (Peer.mk (some "a") none true false false
          [("p1", [1, 2]), ("p2", [3])])).snd.cleanupCalls).count q = 1) ∧
     (destroy (Peer.mk (some "a") none true false false
        [("p1", [1, 2]), ("p2", [3])])).snd.closedHandles = [1, 2, 3] ∧
     (destroy (Peer.mk (some "a") none true false false
        [("p1", [1, 2]), ("p2", [3])])).fst.connections = []) :=
  ⟨rfl, by decide,
   destroy_cleanup_exactly_once
     (Peer.mk (some "a") none true false false [("p1", [1, 2]), ("p2", [3])])
     rfl (by decide)⟩

/-- Claim C2: destroy is idempotent; the second destroy returns the same
session unchanged with an empty effect log (no notification re-emitted, no
registry entry re-iterated), and across both calls at most one disconnected
notification fires and the Transport close operation is invoked at most
once. -/
theorem destroy_idempotent (p : Peer) :
    destroy (destroy p).fst = ((destroy p).fst, emptyEffects) ∧
    countDisconnected ((destroy p).snd.events ++ (destroy (destroy p).fst).snd.events) ≤ 1 ∧
    (destroy p).snd.socketCloses + (destroy (destroy p).fst).snd.socketCloses ≤ 1 := by
  have hsecond : destroy (destroy p).fst = ((destroy p).fst, emptyEffects) :=
    destroy_noop (destroy p).fst (destroy_terminal p)
  refine ⟨hsecond, ?_, ?_⟩ <;> rw [hsecond]
  · simp only [emptyEffects, List.append_nil]
    by_cases hp : p.destroyCalled
    · simp [destroy, hp, emptyEffects, countDisconnected]
    · have hdestroy : (destroy p).snd.events =
          (disconnect p).snd.events ++
            (teardownLoop ((disconnect p).fst.connections.map Prod.fst)
              (disconnect p).fst).snd.events := by
        unfold destroy
        rw [eq_false_of_ne_true hp]
        simp [effAppend]
      rw [hdestroy, (teardownLoop_silent _ _).1, List.append_nil]
      exact (disconnect_event_bound p).1
  · simp only [emptyEffects, Nat.add_zero]
    by_cases hp : p.destroyCalled
    · simp [destroy, hp, emptyEffects]
    · have hdestroy : (destroy p).snd.socketCloses =
          (disconnect p).snd.socketCloses +
            (teardownLoop ((disconnect p).fst.connections.map Prod.fst)
              (disconnect p).fst).snd.socketCloses := by
        unfold destroy
        rw [eq_false_of_ne_true hp]
        simp [effAppend]
      rw [hdestroy, (teardownLoop_silent _ _).2, Nat.add_zero]
      exact (disconnect_event_bound p).2

/-- Claim C3: calling disconnect twice on a session that has not yet
disconnected emits exactly one disconnected notification in total, invokes
the Transport close operation exactly once in total; the second call returns
the session unchanged with empty effects, and neither call touches the
registry. -/
theorem disconnect_idempotent (p : Peer) (h : p.disconnectCalled = false) :
    countDisconnected ((disconnect p).snd.events ++
        (disconnect (disconnect p).fst).snd.events) = 1 ∧
    (disconnect p).snd.socketCloses +
        (disconnect (disconnect p).fst).snd.socketCloses = 1 ∧
    disconnect (disconnect p).fst = ((disconnect p).fst, emptyEffects) ∧
    (disconnect p).fst.connections = p.connections := by
  simp [disconnect, h, countDisconnected, isDisconnectedEv, emptyEffects]

/-- Claim C3 witness at a concrete freshly constructed session. -/
theorem disconnect_idempotent_witness :
    (Peer.mk (some "me") none true false false []).disconnectCalled = false ∧
    (countDisconnected ((disconnect (Peer.mk (some "me") none true false false [])).snd.events ++
        (disconnect (disconnect (Peer.mk (some "me") none true false false [])).fst).snd.events) = 1 ∧
     (disconnect (Peer.mk (some "me") none true false false [])).snd.socketCloses +
        (disconnect (disconnect (Peer.mk (some "me") none true false false [])).fst).snd.socketCloses = 1 ∧
     disconnect (disconnect (Peer.mk (some "me") none true false false [])).fst =
        ((disconnect (Peer.mk (some "me") none true false false [])).fst, emptyEffects) ∧
     (disconnect (Peer.mk (some "me") none true false false [])).fst.connections = []) :=
  ⟨rfl, disconnect_idempotent (Peer.mk (some "me") none true false false []) rfl⟩

/-- Claim C4: a Transport connection-loss event while the session is OPEN
transitions the session to DISCONNECTED and emits exactly one error
notification of kind transport-error carrying the fixed connection-lost
message, followed by exactly one disconnected notification. -/
theorem socket_disconnect_while_open (p : Peer) (h : p.state = PeerState.OPEN) :
    (handleSocketDisconnect p).fst.state = PeerState.DISCONNECTED ∧
    (handleSocketDisconnect p).snd.events =
      [Ev.errorEv "transport-error" "Lost connection to server.",
       Ev.disconnectedEv p.id] := by
  by_cases h1 : p.destroyCalled <;> by_cases h2 : p.disconnectCalled <;>
    by_cases h3 : p.openFlag <;>
    simp_all [Peer.state, handleSocketDisconnect, disconnect]

/-- Claim C4 witness at a concrete OPEN session. -/
theorem socket_disconnect_while_open_witness :
    (Peer.mk (some "me") none true false false []).state = PeerState.OPEN ∧
    ((handleSocketDisconnect (Peer.mk (some "me") none true false false [])).fst.state =
        PeerState.DISCONNECTED ∧
     (handleSocketDisconnect (Peer.mk (some "me") none true false false [])).snd.events =
       [Ev.errorEv "transport-error" "Lost connection to server.",
        Ev.disconnectedEv (some "me")]) :=
  ⟨rfl, socket_disconnect_while_open (Peer.mk (some "me") none true false false []) rfl⟩

/-- Claim C5: after disconnect completes its transition, the identifier is
null and lastIdentifier equals the identifier held immediately before
disconnecting; a further disconnect does not set it again. -/
theorem disconnect_sets_lastPeerId_once (p : Peer) (h : p.disconnectCalled = false) :
    (disconnect p).fst.id = none ∧
    (disconnect p).fst.lastPeerId = p.id ∧
    (disconnect (disconnect p).fst).fst.lastPeerId = p.id := by
  simp [disconnect, h]

/-- Claim C5 witness at a concrete OPEN session holding an identifier. -/
theorem disconnect_sets_lastPeerId_once_witness :
    (Peer.mk (some "me") none true false false []).disconnectCalled = false ∧
    ((disconnect (Peer.mk (some "me") none true false false [])).fst.id = none ∧
     (disconnect (Peer.mk (some "me") none true false false [])).fst.lastPeerId = some "me" ∧
     (disconnect (disconnect (Peer.mk (some "me") none true false false [])).fst).fst.lastPeerId
        = some "me") :=
  ⟨rfl, disconnect_sets_lastPeerId_once (Peer.mk (some "me") none true false false []) rfl⟩

/-- Claim C6: construction with a malformed caller-supplied identifier fails
synchronously with kind invalid-identifier whatever the credential is, and
construction with a well-formed or absent identifier but a malformed
credential fails synchronously with kind invalid-credential; the two kinds
are distinct, and in both cases the result is a failure carrying only the
error kind, so no Session object or Transport is produced. -/
theorem construction_rejects_invalid (i key : String)
    (hi : validId i = false) (hk : validApiKey key = false) :
    (∀ k2 : String, newPeer (some i) k2 = ConstructResult.failed "invalid-identifier") ∧
    (∀ fixedId : Option String, (∀ j, fixedId = some j → validId j = true) →
      newPeer fixedId key = ConstructResult.failed "invalid-credential") ∧
    ("invalid-identifier" : String) ≠ "invalid-credential" := by
  refine ⟨?_, ?_, by decide⟩
  · intro k2
    simp [newPeer, invalidFixedId, hi]
  · intro fixedId hfid
    cases fixedId with
    | none => simp [newPeer, invalidFixedId, hk]
    | some j => simp [newPeer, invalidFixedId, hfid j rfl, hk]

/-- Claim C6 witness: the non-ASCII identifier and the short credential used
by the test suite are both rejected with their distinct kinds. -/
theorem construction_rejects_invalid_witness :
    validId "間違ったIDです" = false ∧ validApiKey "wrong" = false ∧
    ((∀ k2 : String, newPeer (some "間違ったIDです") k2 =
        ConstructResult.failed "invalid-identifier") ∧
     (∀ fixedId : Option String, (∀ j, fixedId = some j → validId j = true) →
        newPeer fixedId "wrong" = ConstructResult.failed "invalid-credential") ∧
     ("invalid-identifier" : String) ≠ "invalid-credential") :=
  ⟨by decide, by decide,
   construction_rejects_invalid "間違ったIDです" "wrong" (by decide) (by decide)⟩

/-- Claim C7: a directory query answered with HTTP 401 raises the fatal
directory-unauthorized error and never invokes the supplied callback,
whatever the response body and whether a callback was supplied. -/
theorem listAllPeers_unauthorized_raises (body : List String) (hasCallback : Bool) :
    listAllPeersResponse 401 body hasCallback = ([], some "directory-unauthorized") :=
  rfl

/-- Claim C8: for every response status other than 200 and 401, a supplied
callback is invoked exactly once with the empty sequence, whatever the
response body, and no error is raised. -/
theorem listAllPeers_other_status_empty (status : Nat) (body : List String)
    (h200 : status ≠ 200) (h401 : status ≠ 401) :
    listAllPeersResponse status body true = ([[]], none) := by
  have b401 : (status == 401) = false := by simpa using h401
  have b200 : (status == 200) = false := by simpa using h200
  simp [listAllPeersResponse, b401, b200]

/-- Claim C8 witness at status 503 with a non-empty response body. -/
theorem listAllPeers_other_status_empty_witness :
    (503 : Nat) ≠ 200 ∧ (503 : Nat) ≠ 401 ∧
    listAllPeersResponse 503 ["peerId1", "peerId2", "peerId3"] true = ([[]], none) :=
  ⟨by decide, by decide,
   listAllPeers_other_status_empty 503 ["peerId1", "peerId2", "peerId3"]
     (by decide) (by decide)⟩

/-
Helper lemmas for the stats-normalization claims.
-/

theorem lookup_mem {β : Type} {l : List (String × β)} {k : String} {v : β}
    (h : l.lookup k = some v) : (k, v) ∈ l := by
  induction l with
  | nil => simp [List.lookup] at h
  | cons e rest ih =>
    obtain ⟨a, b⟩ := e
    simp only [List.lookup] at h
    split at h
    · next heq =>
        have hk : k = a := by simpa using heq
        cases h
        subst hk
        exact List.mem_cons_self _ _
    · exact List.mem_cons_of_mem _ (ih h)

theorem mem_mapSet {report : StatsReport} {k : String} {v : List StatsObj}
    {e : String × List StatsObj} (h : e ∈ mapSet report k v) :
    e ∈ report ∨ e.snd = v := by
  unfold mapSet at h
  split at h
  · obtain ⟨x, hx, hxe⟩ := List.mem_map.mp h
    by_cases hk : (x.fst == k) = true
    · right
      rw [if_pos hk] at hxe
      rw [← hxe]
    · left
      rw [if_neg hk] at hxe
      rwa [hxe] at hx
  · rcases List.mem_append.mp h with h1 | h1
    · exact Or.inl h1
    · right
      simp only [List.mem_singleton] at h1
      rw [h1]

/-- A stats object produced by the preferred-attribute copy branch of
standardizeStatsReport from some original stats object of the report. -/
def builtStats (orig : List StatsObj) (s : StatsObj) : Prop :=
  ∃ o ∈ orig, ∃ attrs, s = buildStandardStats attrs o

/-- Every stats object registered anywhere in the report was produced by the
preferred-attribute copy branch. -/
def goodReport (orig : List StatsObj) (report : StatsReport) : Prop :=
  ∀ e ∈ report, ∀ s ∈ e.snd, builtStats orig s

theorem goodReport_mapSet {orig : List StatsObj} {report : StatsReport}
    {k : String} {v : List StatsObj} (hr : goodReport orig report)
    (hv : ∀ s ∈ v, builtStats orig s) : goodReport orig (mapSet report k v) := by
  intro e he s hs
  rcases mem_mapSet he with h1 | h1
  · exact hr e h1 s hs
  · exact hv s (h1 ▸ hs)

theorem goodReport_step {orig : List StatsObj} {report : StatsReport}
    {rk : String × List (String × JSVal)} (hr : goodReport orig report) :
    goodReport orig (standardizeStep orig report rk) := by
  unfold standardizeStep
  cases hfind : orig.find? (fun o => isReferredStats o rk.snd) with
  | none => exact hr
  | some o =>
    have ho : o ∈ orig := List.mem_of_find?_eq_some hfind
    have hb : builtStats orig (buildStandardStats (prefferedAttrs rk.fst) o) :=
      ⟨o, ho, prefferedAttrs rk.fst, rfl⟩
    cases hlk : report.lookup rk.fst with
    | some statsArray =>
      simp only
      apply goodReport_mapSet hr
      intro s hs
      rcases List.mem_append.mp hs with h1 | h1
      · exact hr (rk.fst, statsArray) (lookup_mem hlk) s h1
      · simp only [List.mem_singleton] at h1
        exact h1 ▸ hb
    | none =>
      simp only
      apply goodReport_mapSet hr
      intro s hs
      simp only [List.mem_singleton] at hs
      exact hs ▸ hb

theorem goodReport_foldl (orig : List StatsObj)
    (rm : List (String × List (String × JSVal))) :
    ∀ report : StatsReport, goodReport orig report →
      goodReport orig (rm.foldl (standardizeStep orig) report) := by
  induction rm with
  | nil => intro report hr; exact hr
  | cons rk rest ih =>
    intro report hr
    exact ih _ (goodReport_step hr)

theorem goodReport_standardizeWith (m : List (String × List (String × JSVal)))
    (orig : List StatsObj) : goodReport orig (standardizeWith m orig) :=
  goodReport_foldl orig m [] (by intro e he; simp at he)

theorem standardize_goodReport {browserName : String} {orig : List StatsObj}
    {rep : StatsReport} (h : standardizeStatsReport browserName orig = some rep) :
    goodReport orig rep := by
  unfold standardizeStatsReport at h
  cases hm : getDialectalReferenceMap browserName with
  | none => rw [hm] at h; cases h
  | some m =>
    rw [hm] at h
    have : standardizeWith m orig = rep := by
      injection h
    rw [← this]
    exact goodReport_standardizeWith m orig

theorem buildStandardStats_values {attrs : List String} {o : StatsObj}
    {a : String} {v : JSVal} (h : (a, v) ∈ buildStandardStats attrs o) :
    v = (if getAttr o a = JSVal.undef then JSVal.undef else JSVal.null) := by
  unfold buildStandardStats at h
  obtain ⟨x, _, hxe⟩ := List.mem_map.mp h
  obtain ⟨h1, h2⟩ := Prod.mk.injEq .. ▸ hxe
  subst h1
  exact h2.symm

theorem builtStats_values {orig : List StatsObj} {s : StatsObj}
    (h : builtStats orig s) :
    ∃ o ∈ orig, ∀ a v, (a, v) ∈ s →
      v = (if getAttr o a = JSVal.undef then JSVal.undef else JSVal.null) := by
  obtain ⟨o, ho, attrs, rfl⟩ := h
  exact ⟨o, ho, fun a v hv => buildStandardStats_values hv⟩

/-
Stats claim theorems.
-/

/-- Claim C9: in every map returned by standardizeStatsReport for a
recognized browser, every attribute of every registered stats object is
either null or undefined; for the matching original stats object, an
attribute that is defined on it is stored as null and an attribute that is
undefined on it is stored as undefined, so no original attribute value is
ever copied into the standardized report. -/
theorem standardize_values_null_or_undef (browserName : String)
    (orig : List StatsObj) (rep : StatsReport)
    (h : standardizeStatsReport browserName orig = some rep) :
    ∀ e ∈ rep, ∀ s ∈ e.snd,
      (∀ a v, (a, v) ∈ s → v = JSVal.null ∨ v = JSVal.undef) ∧
      ∃ o ∈ orig, ∀ a v, (a, v) ∈ s →
        v = (if getAttr o a = JSVal.undef then JSVal.undef else JSVal.null) := by
  intro e he s hs
  have hrep : goodReport orig rep := standardize_goodReport h
  obtain ⟨o, ho, hvals⟩ := builtStats_values (hrep e he s hs)
  refine ⟨?_, o, ho, hvals⟩
  intro a v hv
  have hval := hvals a v hv
  split at hval
  · exact Or.inr hval
  · exact Or.inl hval

/-- Claim C10: in every map returned by standardizeStatsReport for a
recognized browser, the RTCIceCandidatePairs entry, when present, contains
no stats object with a truthy nominated attribute, and the nominated-pair
search of posterior processing finds no element there. -/
theorem candidate_pairs_never_nominated (browserName : String)
    (orig : List StatsObj) (rep : StatsReport) (L : List StatsObj)
    (h : standardizeStatsReport browserName orig = some rep)
    (hL : rep.lookup "RTCIceCandidatePairs" = some L) :
    (∀ s ∈ L, jsTruthy (getAttr s "nominated") = false) ∧
    L.find? (fun s => jsTruthy (getAttr s "nominated")) = none ∧
    findNominatedPair rep = none := by
  have hrep : goodReport orig rep := standardize_goodReport h
  have hmem : ("RTCIceCandidatePairs", L) ∈ rep := lookup_mem hL
  have hfalse : ∀ s ∈ L, jsTruthy (getAttr s "nominated") = false := by
    intro s hs
    obtain ⟨o, _, hvals⟩ := builtStats_values (hrep _ hmem s hs)
    unfold getAttr
    cases hlk : s.lookup "nominated" with
    | none => rfl
    | some v =>
      have hv := hvals "nominated" v (lookup_mem hlk)
      split at hv <;> rw [hv] <;> rfl
  have hfind : L.find? (fun s => jsTruthy (getAttr s "nominated")) = none :=
    List.find?_eq_none.mpr (fun s hs => by simp [hfalse s hs])
  refine ⟨hfalse, hfind, ?_⟩
  unfold findNominatedPair
  rw [hL]
  exact hfind

/-- A concrete original stats report: one nominated ICE candidate pair with
its bytesSent attribute defined, and one outbound video RTP stream. -/
def origW : List StatsObj :=
  [[("type", JSVal.jstr "candidate-pair"), ("nominated", JSVal.jbool false),
    ("bytesSent", JSVal.jnum 42)],
   [("type", JSVal.jstr "outbound-rtp"), ("kind", JSVal.jstr "video"),
    ("bytesSent", JSVal.jnum 100), ("timestamp", JSVal.jnum 1)]]

/-- The standardized report obtained from origW on Chrome. -/
def repW : StatsReport := standardizeWith CHROME_REFERENCE_MAP origW

/-- Claim C9 witness on Chrome at the concrete report origW. -/
theorem standardize_values_null_or_undef_witness :
    standardizeStatsReport "chrome" origW = some repW ∧
    (∀ e ∈ repW, ∀ s ∈ e.snd,
      (∀ a v, (a, v) ∈ s → v = JSVal.null ∨ v = JSVal.undef) ∧
      ∃ o ∈ origW, ∀ a v, (a, v) ∈ s →
        v = (if getAttr o a = JSVal.undef then JSVal.undef else JSVal.null)) :=
  ⟨rfl, standardize_values_null_or_undef "chrome" origW repW rfl⟩

/-- Claim C10 witness on Chrome at the concrete report origW: the registered
candidate-pair stats carries only the preferred attributes, with bytesSent
nulled out, and the nominated-pair search finds nothing. -/
theorem candidate_pairs_never_nominated_witness :
    standardizeStatsReport "chrome" origW = some repW ∧
    repW.lookup "RTCIceCandidatePairs" =
      some [[("bytesSent", JSVal.null), ("bytesReceived", JSVal.undef),
             ("timestamp", JSVal.undef), ("currentRoundTripTime", JSVal.undef)]] ∧
    ((∀ s ∈ [[("bytesSent", JSVal.null), ("bytesReceived", JSVal.undef),
              ("timestamp", JSVal.undef), ("currentRoundTripTime", JSVal.undef)]],
        jsTruthy (getAttr s "nominated") = false) ∧
     List.find? (fun s => jsTruthy (getAttr s "nominated"))
       [[("bytesSent", JSVal.null), ("bytesReceived", JSVal.undef),
         ("timestamp", JSVal.undef), ("currentRoundTripTime", JSVal.undef)]] = none ∧
     findNominatedPair repW = none) :=
  ⟨rfl, by decide,
   candidate_pairs_never_nominated "chrome" origW repW
     [[("bytesSent", JSVal.null), ("bytesReceived", JSVal.undef),
       ("timestamp", JSVal.undef), ("currentRoundTripTime", JSVal.undef)]]
     rfl (by decide)⟩

end SKW
